import Mathlib

/-!
Verification of the generation server (`src/server.js`).

The development shallowly embeds the three core components of the server:
the JSON extractor `extractJSON`, the retrying fetcher `fetchWithRetry`,
and the `POST /generate` handler (model-fallback orchestrator plus request
validation and response mapping).  JavaScript strings are modelled as
`List Char`, machine numbers as `Nat`/`Int`, the ambient `JSON.parse` as a
fuel-based recursive-descent parser over the JSON grammar, and the outbound
`fetch` as an explicit transport function from the attempt index to an HTTP
response.  All definitions are executable so that theorems can be
instantiated on concrete inputs.
-/

/-- JSON values, as produced by `JSON.parse`.  Numbers are kept in exact
decimal scientific form `mantissa * 10 ^ exp10` (the float rounding that a
JavaScript engine would additionally perform is immaterial to every claim
considered here). -/
inductive Json where
  | null
  | bool (b : Bool)
  | num (mantissa : Int) (exp10 : Int)
  | str (s : String)
  | arr (elems : List Json)
  | obj (fields : List (String × Json))
deriving Repr

/-- JSON whitespace accepted by `JSON.parse`: space, tab, line feed,
carriage return. -/
def isJsonWs (c : Char) : Bool :=
  c = ' ' || c = '\t' || c = '\n' || c = '\r'

/-- Drop leading JSON whitespace. -/
def skipWs : List Char → List Char
  | [] => []
  | c :: rest => if isJsonWs c then skipWs rest else c :: rest

/-- Decimal digit value of a character, if any. -/
def digitVal? (c : Char) : Option Nat :=
  if '0' ≤ c && c ≤ '9' then some (c.toNat - '0'.toNat) else none

/-- Hexadecimal digit value of a character, if any. -/
def hexVal? (c : Char) : Option Nat :=
  if '0' ≤ c && c ≤ '9' then some (c.toNat - '0'.toNat)
  else if 'a' ≤ c && c ≤ 'f' then some (10 + (c.toNat - 'a'.toNat))
  else if 'A' ≤ c && c ≤ 'F' then some (10 + (c.toNat - 'A'.toNat))
  else none

/-- Translation of a two-character JSON escape sequence. -/
def escChar? (c : Char) : Option Char :=
  if c = '"' then some '"'
  else if c = '\\' then some '\\'
  else if c = '/' then some '/'
  else if c = 'b' then some (Char.ofNat 8)
  else if c = 'f' then some (Char.ofNat 12)
  else if c = 'n' then some '\n'
  else if c = 'r' then some '\r'
  else if c = 't' then some '\t'
  else none

/-- Parse the body of a JSON string literal (the opening quote already
consumed), returning the decoded string and the rest of the input.
Control characters below U+0020 are rejected, as by `JSON.parse`. -/
def parseStringBody (fuel : Nat) (acc : List Char) (input : List Char) :
    Option (String × List Char) :=
  match fuel with
  | 0 => none
  | fuel + 1 =>
    match input with
    | [] => none
    | '"' :: rest => some (String.mk acc.reverse, rest)
    | '\\' :: esc =>
      match esc with
      | 'u' :: h1 :: h2 :: h3 :: h4 :: rest =>
        match hexVal? h1, hexVal? h2, hexVal? h3, hexVal? h4 with
        | some a, some b, some c, some d =>
          parseStringBody fuel (Char.ofNat (((a * 16 + b) * 16 + c) * 16 + d) :: acc) rest
        | _, _, _, _ => none
      | c :: rest =>
        match escChar? c with
        | some ec => parseStringBody fuel (ec :: acc) rest
        | none => none
      | [] => none
    | c :: rest =>
      if c.toNat < 32 then none else parseStringBody fuel (c :: acc) rest

/-- Consume a maximal run of decimal digits, folding them onto `acc` and
counting them. -/
def takeDigits (fuel : Nat) (acc : Int) (count : Nat) (input : List Char) :
    Int × Nat × List Char :=
  match fuel with
  | 0 => (acc, count, input)
  | fuel + 1 =>
    match input with
    | [] => (acc, count, [])
    | c :: rest =>
      match digitVal? c with
      | some d => takeDigits fuel (acc * 10 + Int.ofNat d) (count + 1) rest
      | none => (acc, count, input)

/-- Parse an optional fraction part.  On input not starting with a dot the
mantissa is returned unchanged with exponent contribution `0`. -/
def parseFrac (mant : Int) (input : List Char) : Option (Int × Int × List Char) :=
  match input with
  | '.' :: fr =>
    match fr with
    | fc :: _ =>
      if (digitVal? fc).isSome then
        let t := takeDigits (fr.length + 1) mant 0 fr
        some (t.1, -(Int.ofNat t.2.1), t.2.2)
      else none
    | [] => none
  | _ => some (mant, 0, input)

/-- Parse an optional exponent part (`e`/`E`, optional sign, digits). -/
def parseExp (input : List Char) : Option (Int × List Char) :=
  match input with
  | c :: rest =>
    if c = 'e' || c = 'E' then
      let sr : Int × List Char :=
        match rest with
        | '+' :: rr => (1, rr)
        | '-' :: rr => (-1, rr)
        | _ => (1, rest)
      match sr.2 with
      | d :: _ =>
        if (digitVal? d).isSome then
          let t := takeDigits (sr.2.length + 1) 0 0 sr.2
          some (sr.1 * t.1, t.2.2)
        else none
      | [] => none
    else some (0, input)
  | [] => some (0, [])

/-- Parse a JSON number (input begins with `-` or a digit).  The JSON
grammar forbids leading zeros, which falls out of taking a `0` integer part
as complete. -/
def parseNumber (input : List Char) : Option (Json × List Char) :=
  let p : Bool × List Char :=
    match input with
    | '-' :: r => (true, r)
    | _ => (false, input)
  match p.2 with
  | c :: r2 =>
    match digitVal? c with
    | none => none
    | some d =>
      let ip : Int × List Char :=
        if d = 0 then (0, r2)
        else
          let t := takeDigits (r2.length + 1) (Int.ofNat d) 1 r2
          (t.1, t.2.2)
      match parseFrac ip.1 ip.2 with
      | none => none
      | some (m, e1, r3) =>
        match parseExp r3 with
        | none => none
        | some (e2, r4) => some (.num (if p.1 then -m else m) (e1 + e2), r4)
  | [] => none

/-- Insert a key/value pair as JavaScript object construction does: a
duplicate key keeps its original position but takes the later value. -/
def objInsert (kvs : List (String × Json)) (key : String) (v : Json) :
    List (String × Json) :=
  match kvs with
  | [] => [(key, v)]
  | (k, w) :: rest => if k = key then (k, v) :: rest else (k, w) :: objInsert rest key v

mutual

/-- Parse one JSON value from `input` (leading whitespace already
skipped). -/
def parseValue (fuel : Nat) (input : List Char) : Option (Json × List Char) :=
  match fuel with
  | 0 => none
  | fuel + 1 =>
    match input with
    | [] => none
    | c :: rest =>
      if c = '"' then
        (parseStringBody (rest.length + 1) [] rest).map fun p => (.str p.1, p.2)
      else if c = '\x7b' then
        match skipWs rest with
        | '\x7d' :: r2 => some (.obj [], r2)
        | r2 => parseMembers fuel [] r2
      else if c = '[' then
        match skipWs rest with
        | ']' :: r2 => some (.arr [], r2)
        | r2 => parseElems fuel [] r2
      else if c = 't' then
        match rest with
        | 'r' :: 'u' :: 'e' :: r => some (.bool true, r)
        | _ => none
      else if c = 'f' then
        match rest with
        | 'a' :: 'l' :: 's' :: 'e' :: r => some (.bool false, r)
        | _ => none
      else if c = 'n' then
        match rest with
        | 'u' :: 'l' :: 'l' :: r => some (.null, r)
        | _ => none
      else if c = '-' || (digitVal? c).isSome then parseNumber input
      else none

/-- Parse the members of a non-empty JSON object, the opening brace
consumed and at least one member expected. -/
def parseMembers (fuel : Nat) (acc : List (String × Json)) (input : List Char) :
    Option (Json × List Char) :=
  match fuel with
  | 0 => none
  | fuel + 1 =>
    match input with
    | '"' :: rest =>
      match parseStringBody (rest.length + 1) [] rest with
      | none => none
      | some (key, r2) =>
        match skipWs r2 with
        | ':' :: r3 =>
          match parseValue fuel (skipWs r3) with
          | none => none
          | some (v, r4) =>
            match skipWs r4 with
            | ',' :: r5 => parseMembers fuel (objInsert acc key v) (skipWs r5)
            | '\x7d' :: r5 => some (.obj (objInsert acc key v), r5)
            | _ => none
        | _ => none
    | _ => none

/-- Parse the elements of a non-empty JSON array, the opening bracket
consumed and at least one element expected. -/
def parseElems (fuel : Nat) (acc : List Json) (input : List Char) :
    Option (Json × List Char) :=
  match fuel with
  | 0 => none
  | fuel + 1 =>
    match parseValue fuel input with
    | none => none
    | some (v, r2) =>
      match skipWs r2 with
      | ',' :: r3 => parseElems fuel (acc ++ [v]) (skipWs r3)
      | ']' :: r3 => some (.arr (acc ++ [v]), r3)
      | _ => none

end

/-- Model of JavaScript `JSON.parse`: parse one value surrounded by
optional whitespace, requiring the whole input to be consumed.  The fuel
`2 * length + 2` dominates the recursion depth, since every two successive
recursive calls consume at least one input character. -/
def jsonParse (s : List Char) : Option Json :=
  match parseValue (2 * s.length + 2) (skipWs s) with
  | some (v, rest) => if skipWs rest = [] then some v else none
  | none => none

/-- Index of the first occurrence of `c`, as `String.prototype.indexOf`
(with `-1` rendered as `none`). -/
def firstIdx (c : Char) : List Char → Option Nat
  | [] => none
  | x :: xs => if x = c then some 0 else (firstIdx c xs).map (· + 1)

/-- Index of the last occurrence of `c`, as `String.prototype.lastIndexOf`
(with `-1` rendered as `none`). -/
def lastIdx (c : Char) : List Char → Option Nat
  | [] => none
  | x :: xs =>
    match lastIdx c xs with
    | some k => some (k + 1)
    | none => if x = c then some 0 else none

/-- JavaScript `String.prototype.substring`: indices are clamped to the
string and swapped when the start exceeds the end. -/
def jsSubstring (s : List Char) (a b : Nat) : List Char :=
  (s.take (max a b)).drop (min a b)

/-- `extractJSON`, the body of its `try` block (`src/server.js` lines
28–35): locate the first `\x7b` and the last `\x7d`, throw `JSON not
found` if either is missing, otherwise `JSON.parse` the inclusive
substring (a parse failure is the thrown `SyntaxError`, here an anonymous
error value). -/
def extractJSONTry (text : List Char) : Except String Json :=
  match firstIdx '\x7b' text, lastIdx '\x7d' text with
  | some s, some e =>
    match jsonParse (jsSubstring text s (e + 1)) with
    | some v => .ok v
    | none => .error "SyntaxError"
  | _, _ => .error "JSON not found"

/-- `extractJSON` (`src/server.js` lines 27–39): the `catch` swallows any
error thrown in the `try` block — including the internal `JSON not found`
— and rethrows a single message. -/
def extractJSON (text : List Char) : Except String Json :=
  match extractJSONTry text with
  | .ok v => .ok v
  | .error _ => .error "Failed to parse JSON from AI response."

/-- An HTTP response as seen by the retrying fetcher: its status code and
its body text (`response.text()` / the raw text that `response.json()`
parses). -/
structure HttpResponse where
  status : Nat
  body : String
deriving DecidableEq, Repr

/-- `response.ok` of the fetch API: status in the inclusive 2xx range. -/
def HttpResponse.respOk (r : HttpResponse) : Bool :=
  200 ≤ r.status && r.status < 300

/-- Terminal outcome of `fetchWithRetry`: the returned response, or one of
the three thrown errors.  In the source each error is an `Error` whose
message embeds the shown data (`Quota exceeded. Please try again later.`,
`Google API failed (status): body`, `Model overloaded after multiple
retries.`). -/
inductive FetchOutcome where
  | success (r : HttpResponse)
  | quotaExceeded (body : String)
  | upstreamError (status : Nat) (body : String)
  | transientExhausted
deriving DecidableEq, Repr

/-- Observable result of one `fetchWithRetry` call: its outcome together
with how many requests were issued, how many backoff sleeps were
performed, and the total milliseconds slept. -/
structure FetchResult where
  outcome : FetchOutcome
  requests : Nat
  sleeps : Nat
  sleptMs : Nat
deriving DecidableEq, Repr

/-- The `for (let i = 0; i < retries; i++)` loop of `fetchWithRetry`
(`src/server.js` lines 46–65), with `fuel` the number of remaining
iterations and `i` the current attempt index.  The transport maps the
attempt index to the response of that `fetch(url, options)` call (the url
and options are fixed across attempts in the source, so the index is the
only varying input). -/
def fetchLoop (transport : Nat → HttpResponse) (delay : Nat) (i : Nat) :
    Nat → FetchResult
  | 0 => ⟨.transientExhausted, 0, 0, 0⟩
  | fuel + 1 =>
    let r := transport i
    if r.respOk then ⟨.success r, 1, 0, 0⟩
    else if r.status = 429 then ⟨.quotaExceeded r.body, 1, 0, 0⟩
    else if r.status = 503 then
      let rest := fetchLoop transport delay (i + 1) fuel
      ⟨rest.outcome, 1 + rest.requests, 1 + rest.sleeps, delay + rest.sleptMs⟩
    else ⟨.upstreamError r.status r.body, 1, 0, 0⟩

/-- `fetchWithRetry(url, options, retries, delay)` (`src/server.js` lines
45–68).  `retries` is an `Int` since the JavaScript loop bound may be
nonpositive, in which case the loop body never runs and the function
throws `Model overloaded after multiple retries.` at once. -/
def fetchWithRetry (transport : Nat → HttpResponse) (retries : Int) (delay : Nat) :
    FetchResult :=
  fetchLoop transport delay 0 retries.toNat

/-- A JavaScript value as relevant to the request body fields and the
environment credential: only the shapes that influence the handler's
control flow are distinguished. -/
inductive JSValue where
  | undefined
  | null
  | bool (b : Bool)
  | num (n : Int)
  | str (s : String)
deriving DecidableEq, Repr

/-- JavaScript truthiness of a `JSValue` (`NaN` and document objects play
no role in the claims). -/
def jsTruthy : JSValue → Bool
  | .undefined => false
  | .null => false
  | .bool b => b
  | .num n => !(n == 0)
  | .str s => !(s == "")

/-- JavaScript truthiness of a parsed JSON value, used by the
`!finalResponse` test.  (The engine's float rounding could additionally
collapse extreme exponents to zero; no claim involves such numbers.) -/
def jsonTruthy : Json → Bool
  | .null => false
  | .bool b => b
  | .num m _ => !(m == 0)
  | .str s => !(s == "")
  | .arr _ => true
  | .obj _ => true

/-- Association-list lookup for object properties (`objInsert` keeps keys
unique, so first match is the value). -/
def listLookup (kvs : List (String × Json)) (key : String) : Option Json :=
  match kvs with
  | [] => none
  | (k, v) :: rest => if k = key then some v else listLookup rest key

/-- JavaScript property access `x?.name` on a parsed JSON value:
an object yields its property (or `undefined` = `none`), every other value
yields `undefined` (no JSON value owns a named string property of the
envelope path). -/
def jprop (j : Json) (key : String) : Option Json :=
  match j with
  | .obj kvs => listLookup kvs key
  | _ => none

/-- JavaScript indexed access `x?.[n]`: an array yields its element, an
object the property named by the index, a string its code unit as a
one-character string; numbers and booleans yield `undefined`. -/
def jindex (j : Json) (n : Nat) : Option Json :=
  match j with
  | .arr xs => xs.get? n
  | .obj kvs => listLookup kvs (toString n)
  | .str s => (s.toList.get? n).map fun c => .str (String.mk [c])
  | _ => none

/-- The optional-chain `data?.candidates?.[0]?.content?.parts?.[0]?.text`
(`src/server.js` line 134): `none` is JavaScript `undefined`. -/
def navigateEnvelope (data : Json) : Option Json :=
  ((((jprop data "candidates").bind fun c => jindex c 0).bind fun c =>
      jprop c "content").bind fun c => jprop c "parts").bind fun p =>
    (jindex p 0).bind fun p0 => jprop p0 "text"

/-- Is this `Except` a success? -/
def exOk : Except String Json → Bool
  | .ok _ => true
  | .error _ => false

/-- One iteration body of the model loop (`src/server.js` lines 117–147):
call `fetchWithRetry` with the default `retries = 3`, `delay = 2000`;
on a response, `response.json()` it, check the envelope path for a truthy
text (else throw `Invalid Gemini response structure.`), and run
`extractJSON` on it (a truthy non-string text makes `text.indexOf` throw a
`TypeError`).  Returns the extraction result together with the number of
outbound requests this attempt issued. -/
def attemptModel (transport : Nat → HttpResponse) : Except String Json × Nat :=
  let f := fetchWithRetry transport 3 2000
  match f.outcome with
  | .success r =>
    (match jsonParse r.body.toList with
     | none => .error "SyntaxError: response.json()"
     | some data =>
       match navigateEnvelope data with
       | some t =>
         if jsonTruthy t then
           match t with
           | .str s => extractJSON s.toList
           | _ => .error "TypeError: text.indexOf is not a function"
         else .error "Invalid Gemini response structure."
       | none => .error "Invalid Gemini response structure.",
     f.requests)
  | .quotaExceeded _ => (.error "Quota exceeded. Please try again later.", f.requests)
  | .upstreamError st b =>
    (.error ("Google API failed (" ++ toString st ++ "): " ++ b), f.requests)
  | .transientExhausted => (.error "Model overloaded after multiple retries.", f.requests)

/-- A model of the fallback list: the model identifier together with the
transport describing how the external API answers that model's requests
(the per-model outcome assignment). -/
def ModelSpec : Type := String × (Nat → HttpResponse)

/-- Observable result of the `for (const model of MODELS)` loop: the final
value of `finalResponse` (`none` when no attempt succeeded), the model
identifiers attempted in order, and the total outbound requests issued. -/
structure RunResult where
  result : Option Json
  attempted : List String
  requests : Nat
deriving Repr

/-- The model loop (`src/server.js` lines 109–148): try each model in
order; the inner `catch` swallows any per-model failure and the loop
advances; the first success assigns `finalResponse` and `break`s. -/
def runModels : List ModelSpec → RunResult
  | [] => ⟨none, [], 0⟩
  | m :: rest =>
    let a := attemptModel m.2
    match a.1 with
    | .ok v => ⟨some v, [m.1], a.2⟩
    | .error _ =>
      let r := runModels rest
      ⟨r.result, m.1 :: r.attempted, a.2 + r.requests⟩

/-- The JSON body `\x7b "error": msg \x7d` of an error response. -/
def errObj (msg : String) : Json :=
  .obj [("error", .str msg)]

/-- The request body fields read by the handler (`req.body.topic`,
`req.body.prompt`); a field absent from the posted JSON is
`undefined`. -/
structure GenRequest where
  topic : JSValue
  prompt : JSValue
deriving DecidableEq, Repr

/-- `req.body.topic || req.body.prompt` (`src/server.js` line 73). -/
def selectTopic (body : GenRequest) : JSValue :=
  if jsTruthy body.topic then body.topic else body.prompt

/-- The HTTP response sent for one `POST /generate` request, plus the
total number of outbound requests issued while handling it. -/
structure HandlerResult where
  respStatus : Nat
  respBody : Json
  outbound : Nat
deriving Repr

/-- The `POST /generate` handler (`src/server.js` lines 71–162): select
the topic, fail 503 if the credential is falsy (the thrown
`GOOGLE_API_KEY missing in .env` is caught by the outer handler), return
400 if the topic is falsy, run the model loop, and then the
`if (!finalResponse)` test: a missing — or falsy — final value throws
`All Gemini models are unavailable or quota exhausted.`, otherwise
`res.json(finalResponse)` answers 200.  The outer `catch` answers 503 with
the error message. -/
def generateHandler (apiKey : JSValue) (body : GenRequest)
    (models : List ModelSpec) : HandlerResult :=
  let topic := selectTopic body
  if jsTruthy apiKey = false then
    ⟨503, errObj "GOOGLE_API_KEY missing in .env", 0⟩
  else if jsTruthy topic = false then
    ⟨400, errObj "Topic or prompt is required.", 0⟩
  else
    let r := runModels models
    match r.result with
    | some v =>
      if jsonTruthy v then ⟨200, v, r.requests⟩
      else ⟨503, errObj "All Gemini models are unavailable or quota exhausted.", r.requests⟩
    | none =>
      ⟨503, errObj "All Gemini models are unavailable or quota exhausted.", r.requests⟩

/-- Helper: with both delimiters found and the substring parsing, the
extractor returns the parsed value. -/
theorem extractJSON_ok_of_parse (text : List Char) (s e : Nat) (v : Json)
    (hs : firstIdx '\x7b' text = some s) (he : lastIdx '\x7d' text = some e)
    (hp : jsonParse (jsSubstring text s (e + 1)) = some v) :
    extractJSON text = .ok v := by
  simp [extractJSON, extractJSONTry, hs, he, hp]

/-- C1: for every transport whose first two responses have status 503 and
whose third has status 200, `fetchWithRetry` with `retries = 3` returns
the third response after exactly 3 requests and exactly 2 sleeps of
`delay` ms each; and for every transport that always answers 503,
`fetchWithRetry` with `retries = 3` ends in the transient-exhausted error
after exactly 3 requests. -/
theorem fetchWithRetry_503_503_200_and_always_503 :
    (∀ (tr : Nat → HttpResponse) (delay : Nat),
      (tr 0).status = 503 → (tr 1).status = 503 → (tr 2).status = 200 →
      fetchWithRetry tr 3 delay = ⟨.success (tr 2), 3, 2, 2 * delay⟩)
    ∧ (∀ (tr : Nat → HttpResponse) (delay : Nat),
      (∀ i, (tr i).status = 503) →
      fetchWithRetry tr 3 delay = ⟨.transientExhausted, 3, 3, 3 * delay⟩) := by
  constructor
  · intro tr delay h0 h1 h2
    have hok0 : (tr 0).respOk = false := by simp [HttpResponse.respOk, h0]
    have hok1 : (tr 1).respOk = false := by simp [HttpResponse.respOk, h1]
    have hok2 : (tr 2).respOk = true := by simp [HttpResponse.respOk, h2]
    show fetchLoop tr delay 0 3 = _
    simp [show (3 : Nat) = 2 + 1 from rfl, fetchLoop, hok0, hok1, hok2, h0, h1]
    omega
  · intro tr delay hall
    have hok : ∀ i, (tr i).respOk = false := fun i => by
      simp [HttpResponse.respOk, hall i]
    show fetchLoop tr delay 0 3 = _
    simp [show (3 : Nat) = 2 + 1 from rfl, fetchLoop, hok, hall]
    omega

/-- C1 witness: the two scenarios on concrete transports. -/
theorem fetchWithRetry_503_503_200_and_always_503_witness :
    fetchWithRetry (fun i => if i ≤ 1 then ⟨503, "over"⟩ else ⟨200, "okbody"⟩) 3 2000 =
      ⟨.success ⟨200, "okbody"⟩, 3, 2, 4000⟩
    ∧ fetchWithRetry (fun _ => ⟨503, "x"⟩) 3 5 = ⟨.transientExhausted, 3, 3, 15⟩ :=
  ⟨fetchWithRetry_503_503_200_and_always_503.1
      (fun i => if i ≤ 1 then ⟨503, "over"⟩ else ⟨200, "okbody"⟩) 2000 rfl rfl rfl,
    fetchWithRetry_503_503_200_and_always_503.2 (fun _ => ⟨503, "x"⟩) 5 fun _ => rfl⟩

/-- C6: a first response that is neither 2xx nor 503 ends the call after
exactly one request, no sleep: with the quota error when the status is
429, with the upstream error carrying status and body otherwise. -/
theorem fetchWithRetry_terminal_status (tr : Nat → HttpResponse) (retries : Int)
    (delay : Nat) (hr : 1 ≤ retries) (hok : (tr 0).respOk = false)
    (h503 : (tr 0).status ≠ 503) :
    ((tr 0).status = 429 →
      fetchWithRetry tr retries delay = ⟨.quotaExceeded (tr 0).body, 1, 0, 0⟩)
    ∧ ((tr 0).status ≠ 429 →
      fetchWithRetry tr retries delay =
        ⟨.upstreamError (tr 0).status (tr 0).body, 1, 0, 0⟩) := by
  obtain ⟨k, hk⟩ : ∃ k, retries.toNat = k + 1 := ⟨retries.toNat - 1, by omega⟩
  constructor
  · intro h429
    show fetchLoop tr delay 0 retries.toNat = _
    rw [hk]
    simp [fetchLoop, hok, h429]
  · intro h429
    show fetchLoop tr delay 0 retries.toNat = _
    rw [hk]
    simp [fetchLoop, hok, h429, h503]

/-- C6 witness: a 429 transport and a 500 transport. -/
theorem fetchWithRetry_terminal_status_witness :
    fetchWithRetry (fun _ => ⟨429, "quota"⟩) 3 2000 = ⟨.quotaExceeded "quota", 1, 0, 0⟩
    ∧ fetchWithRetry (fun _ => ⟨500, "boom"⟩) 3 2000 = ⟨.upstreamError 500 "boom", 1, 0, 0⟩ :=
  ⟨(fetchWithRetry_terminal_status (fun _ => ⟨429, "quota"⟩) 3 2000 (by decide) rfl
      (by decide)).1 rfl,
    (fetchWithRetry_terminal_status (fun _ => ⟨500, "boom"⟩) 3 2000 (by decide) rfl
      (by decide)).2 (by decide)⟩

/-- C10: a nonpositive `retries` skips the loop entirely: zero requests,
zero sleeps, and the immediate transient-exhausted error, whatever the
transport and delay. -/
theorem fetchWithRetry_nonpositive_retries (tr : Nat → HttpResponse) (retries : Int)
    (delay : Nat) (h : retries ≤ 0) :
    fetchWithRetry tr retries delay = ⟨.transientExhausted, 0, 0, 0⟩ := by
  have h0 : retries.toNat = 0 := by omega
  show fetchLoop tr delay 0 retries.toNat = _
  rw [h0]
  rfl

/-- C10 witness: `retries = -1` on a transport that would answer 200. -/
theorem fetchWithRetry_nonpositive_retries_witness :
    fetchWithRetry (fun _ => ⟨200, "ok"⟩) (-1) 2000 = ⟨.transientExhausted, 0, 0, 0⟩ :=
  fetchWithRetry_nonpositive_retries (fun _ => ⟨200, "ok"⟩) (-1) 2000 (by decide)

/-- C4 counterexample: on input `x` (no brace at all) the claim expects
`ParseError("JSON not found")`, but the extractor's `catch` wraps the
internal throw, so the surfaced message is `Failed to parse JSON from AI
response.`. -/
theorem extractJSON_message_counterexample :
    extractJSON "x".toList = .error "Failed to parse JSON from AI response."
    ∧ extractJSON "x".toList ≠ .error "JSON not found" := by
  constructor
  · rfl
  · intro h
    rw [show extractJSON "x".toList =
      .error "Failed to parse JSON from AI response." from rfl] at h
    exact absurd (Except.error.inj h) (by decide)

/-- C4 amended: `extractJSON` fails exactly when a delimiter is missing or
the (JS-semantics) substring between the found indices is not valid JSON,
and every failure carries the single message `Failed to parse JSON from AI
response.` — the internal `JSON not found` throw is swallowed by the
`catch`, and a first-brace-after-last-brace input is not separately
detected (its swapped substring is parsed instead). -/
theorem extractJSON_failure_characterization (text : List Char) :
    (((firstIdx '\x7b' text).isNone || (lastIdx '\x7d' text).isNone) = true →
      extractJSON text = .error "Failed to parse JSON from AI response.")
    ∧ (∀ s e, firstIdx '\x7b' text = some s → lastIdx '\x7d' text = some e →
        jsonParse (jsSubstring text s (e + 1)) = none →
        extractJSON text = .error "Failed to parse JSON from AI response.")
    ∧ (∀ msg, extractJSON text = .error msg →
        msg = "Failed to parse JSON from AI response.")
    ∧ (∀ msg, extractJSON text = .error msg →
        ((firstIdx '\x7b' text).isNone || (lastIdx '\x7d' text).isNone) = true
        ∨ ∃ s e, firstIdx '\x7b' text = some s ∧ lastIdx '\x7d' text = some e ∧
            jsonParse (jsSubstring text s (e + 1)) = none) := by
  refine ⟨?_, ?_, ?_, ?_⟩
  · intro h
    cases hf : firstIdx '\x7b' text with
    | none => simp [extractJSON, extractJSONTry, hf]
    | some s =>
      cases hl : lastIdx '\x7d' text with
      | none => simp [extractJSON, extractJSONTry, hf, hl]
      | some e => simp [hf, hl] at h
  · intro s e hs he hp
    simp [extractJSON, extractJSONTry, hs, he, hp]
  · intro msg h
    unfold extractJSON at h
    split at h
    · exact Except.noConfusion h
    · exact (Except.error.inj h).symm
  · intro msg h
    cases hf : firstIdx '\x7b' text with
    | none => exact Or.inl (by simp [hf])
    | some s =>
      cases hl : lastIdx '\x7d' text with
      | none => exact Or.inl (by simp [hl])
      | some e =>
        cases hp : jsonParse (jsSubstring text s (e + 1)) with
        | none => exact Or.inr ⟨s, e, rfl, rfl, hp⟩
        | some v => simp [extractJSON, extractJSONTry, hf, hl, hp] at h

/-- C4 witness: the characterization applied to the braceless input
`x`. -/
theorem extractJSON_failure_characterization_witness :
    extractJSON "x".toList = .error "Failed to parse JSON from AI response." :=
  (extractJSON_failure_characterization "x".toList).1 rfl

/-- C5: whenever the first `\x7b` and last `\x7d` of `text` delimit a
substring that parses as JSON, `extractJSON` returns that parsed value. -/
theorem extractJSON_valid_span (text : List Char) (s e : Nat) (v : Json)
    (hs : firstIdx '\x7b' text = some s) (he : lastIdx '\x7d' text = some e)
    (_hse : s ≤ e) (hp : jsonParse (jsSubstring text s (e + 1)) = some v) :
    extractJSON text = .ok v :=
  extractJSON_ok_of_parse text s e v hs he hp

/-- C5 witness: the spec's concrete example, JSON wrapped in prose. -/
theorem extractJSON_valid_span_witness :
    extractJSON "prefix \x7b\"html\":\"a\",\"css\":\"b\",\"js\":\"c\"\x7d suffix".toList =
      .ok (.obj [("html", .str "a"), ("css", .str "b"), ("js", .str "c")]) :=
  extractJSON_valid_span
    "prefix \x7b\"html\":\"a\",\"css\":\"b\",\"js\":\"c\"\x7d suffix".toList 7 37
    (.obj [("html", .str "a"), ("css", .str "b"), ("js", .str "c")])
    rfl rfl (by decide) rfl

/-- C2: with every model before `m` failing and `m`'s attempt succeeding
with `v`, the loop returns `v`, attempts each earlier model exactly once
in list order, and attempts nothing after `m`. -/
theorem runModels_first_success (pre post : List ModelSpec) (m : ModelSpec) (v : Json)
    (hfail : ∀ ms ∈ pre, exOk (attemptModel ms.2).1 = false)
    (hsucc : (attemptModel m.2).1 = .ok v) :
    (runModels (pre ++ m :: post)).result = some v
    ∧ (runModels (pre ++ m :: post)).attempted = pre.map Prod.fst ++ [m.1] := by
  induction pre with
  | nil =>
    simp only [List.nil_append, List.map_nil]
    simp [runModels, hsucc]
  | cons p pre ih =>
    have hp : exOk (attemptModel p.2).1 = false := hfail p (List.mem_cons_self p pre)
    have hrest := ih fun ms hms => hfail ms (List.mem_cons_of_mem p hms)
    cases hpa : (attemptModel p.2).1 with
    | ok w => rw [hpa] at hp; exact absurd hp (by simp [exOk])
    | error msg =>
      simp only [List.cons_append, List.map_cons]
      simp [runModels, hpa, hrest.1, hrest.2]

/-- C2 witness: model A's transport always answers 503 (its attempt fails
transient-exhausted), model B's answers 200 with a well-formed envelope;
the loop returns B's site having attempted exactly A then B. -/
theorem runModels_first_success_witness :
    (runModels [("gemini-2.5-flash-lite", fun _ => ⟨503, "overloaded"⟩),
      ("gemini-2.5-flash", fun _ =>
        ⟨200, "\x7b\"candidates\":[\x7b\"content\":\x7b\"parts\":[\x7b\"text\":\"\x7b\\\"html\\\":\\\"a\\\",\\\"css\\\":\\\"b\\\",\\\"js\\\":\\\"c\\\"\x7d\"\x7d]\x7d\x7d]\x7d"⟩)]).result
      = some (.obj [("html", .str "a"), ("css", .str "b"), ("js", .str "c")])
    ∧ (runModels [("gemini-2.5-flash-lite", fun _ => ⟨503, "overloaded"⟩),
      ("gemini-2.5-flash", fun _ =>
        ⟨200, "\x7b\"candidates\":[\x7b\"content\":\x7b\"parts\":[\x7b\"text\":\"\x7b\\\"html\\\":\\\"a\\\",\\\"css\\\":\\\"b\\\",\\\"js\\\":\\\"c\\\"\x7d\"\x7d]\x7d\x7d]\x7d"⟩)]).attempted
      = ["gemini-2.5-flash-lite", "gemini-2.5-flash"] :=
  runModels_first_success [("gemini-2.5-flash-lite", fun _ => ⟨503, "overloaded"⟩)] []
    ("gemini-2.5-flash", fun _ =>
      ⟨200, "\x7b\"candidates\":[\x7b\"content\":\x7b\"parts\":[\x7b\"text\":\"\x7b\\\"html\\\":\\\"a\\\",\\\"css\\\":\\\"b\\\",\\\"js\\\":\\\"c\\\"\x7d\"\x7d]\x7d\x7d]\x7d"⟩)
    (.obj [("html", .str "a"), ("css", .str "b"), ("js", .str "c")])
    (by intro ms hms; rw [List.mem_singleton] at hms; subst hms; rfl) rfl

/-- Helper: the loop ends with no result exactly when every model's
attempt fails. -/
theorem runModels_result_none_iff (models : List ModelSpec) :
    (runModels models).result = none ↔
      ∀ ms ∈ models, exOk (attemptModel ms.2).1 = false := by
  induction models with
  | nil => simp [runModels]
  | cons m rest ih =>
    cases ha : (attemptModel m.2).1 with
    | ok w => simp [runModels, ha, exOk]
    | error msg => simp [runModels, ha, exOk, ih]

/-- C3 amended: past validation, the handler answers 503 with the
`All Gemini models are unavailable or quota exhausted.` body exactly when
every model's attempt fails, or when the earliest successful attempt
produced a falsy JSON value (`null`, `false`, `0`, `""`) that the
`!finalResponse` sentinel test misreads as exhaustion; a 200 answer
always carries exactly the earliest successful attempt's value.  Every
per-model failure is consumed inside the loop (`runModels` is total and
the handler maps its result to a single response). -/
theorem generateHandler_exhausted_iff (apiKey : JSValue) (body : GenRequest)
    (models : List ModelSpec)
    (hkey : jsTruthy apiKey = true) (htopic : jsTruthy (selectTopic body) = true) :
    (((generateHandler apiKey body models).respStatus = 503 ∧
      (generateHandler apiKey body models).respBody =
        errObj "All Gemini models are unavailable or quota exhausted.") ↔
      ((∀ ms ∈ models, exOk (attemptModel ms.2).1 = false) ∨
        (∃ v, (runModels models).result = some v ∧ jsonTruthy v = false)))
    ∧ (∀ v, (runModels models).result = some v → jsonTruthy v = true →
        generateHandler apiKey body models = ⟨200, v, (runModels models).requests⟩) := by
  cases hres : (runModels models).result with
  | none =>
    refine ⟨⟨fun _ => Or.inl ((runModels_result_none_iff models).mp hres), fun _ => ?_⟩,
      fun v hv => Option.noConfusion hv⟩
    constructor
    · simp [generateHandler, hkey, htopic, hres]
    · simp [generateHandler, hkey, htopic, hres]
  | some v =>
    cases htv : jsonTruthy v with
    | true =>
      have hh : generateHandler apiKey body models =
          ⟨200, v, (runModels models).requests⟩ := by
        simp [generateHandler, hkey, htopic, hres, htv]
      refine ⟨⟨fun hc => ?_, fun hc => ?_⟩, fun w hw _ => ?_⟩
      · rw [hh] at hc
        simp at hc
      · rcases hc with hall | ⟨w, hw, htw⟩
        · rw [(runModels_result_none_iff models).mpr hall] at hres
          exact Option.noConfusion hres
        · rw [← Option.some.inj hw] at htw
          rw [htv] at htw
          exact Bool.noConfusion htw
      · rw [← Option.some.inj hw]
        exact hh
    | false =>
      have hh : generateHandler apiKey body models =
          ⟨503, errObj "All Gemini models are unavailable or quota exhausted.",
            (runModels models).requests⟩ := by
        simp [generateHandler, hkey, htopic, hres, htv]
      refine ⟨⟨fun _ => Or.inr ⟨v, rfl, htv⟩, fun _ => by rw [hh]; exact ⟨rfl, rfl⟩⟩,
        fun w hw htw => ?_⟩
      rw [← Option.some.inj hw] at htw
      rw [htw] at htv
      exact Bool.noConfusion htv

/-- C3 witness: the characterization on a configured key, a valid topic
and a single always-overloaded model. -/
theorem generateHandler_exhausted_iff_witness :
    (((generateHandler (.str "k") ⟨.str "t", .undefined⟩
        [("m", fun _ => ⟨503, "x"⟩)]).respStatus = 503 ∧
      (generateHandler (.str "k") ⟨.str "t", .undefined⟩
        [("m", fun _ => ⟨503, "x"⟩)]).respBody =
        errObj "All Gemini models are unavailable or quota exhausted.") ↔
      ((∀ ms ∈ [(("m" : String), fun _ => (⟨503, "x"⟩ : HttpResponse))],
          exOk (attemptModel ms.2).1 = false) ∨
        (∃ v, (runModels [("m", fun _ => ⟨503, "x"⟩)]).result = some v ∧
          jsonTruthy v = false)))
    ∧ (∀ v, (runModels [("m", fun _ => ⟨503, "x"⟩)]).result = some v →
        jsonTruthy v = true →
        generateHandler (.str "k") ⟨.str "t", .undefined⟩
          [("m", fun _ => ⟨503, "x"⟩)] =
          ⟨200, v, (runModels [("m", fun _ => ⟨503, "x"⟩)]).requests⟩) :=
  generateHandler_exhausted_iff (.str "k") ⟨.str "t", .undefined⟩
    [("m", fun _ => ⟨503, "x"⟩)] rfl rfl

/-- C3 counterexample: one model whose attempt succeeds — the envelope
text `\x7d 0 \x7b` extracts (via substring-swap) to the JSON number `0` —
yet the handler answers the all-models-exhausted 503, because
`!finalResponse` is true on the falsy value `0`. -/
theorem generateHandler_exhausted_despite_success :
    (attemptModel (fun _ =>
      ⟨200, "\x7b\"candidates\":[\x7b\"content\":\x7b\"parts\":[\x7b\"text\":\"\x7d 0 \x7b\"\x7d]\x7d\x7d]\x7d"⟩)).1
      = .ok (.num 0 0)
    ∧ generateHandler (.str "key") ⟨.str "cats", .undefined⟩
        [("gemini-2.5-flash-lite", fun _ =>
          ⟨200, "\x7b\"candidates\":[\x7b\"content\":\x7b\"parts\":[\x7b\"text\":\"\x7d 0 \x7b\"\x7d]\x7d\x7d]\x7d"⟩)] =
      ⟨503, errObj "All Gemini models are unavailable or quota exhausted.", 1⟩ :=
  ⟨rfl, rfl⟩

/-- C7: with the credential configured and a body carrying neither field,
the handler answers 400 with the structured error body and issues zero
outbound requests, whatever models are configured. -/
theorem generateHandler_empty_body_400 (apiKey : JSValue) (models : List ModelSpec)
    (hkey : jsTruthy apiKey = true) :
    generateHandler apiKey ⟨.undefined, .undefined⟩ models =
      ⟨400, errObj "Topic or prompt is required.", 0⟩ := by
  have h : jsTruthy (selectTopic ⟨.undefined, .undefined⟩) = false := rfl
  simp [generateHandler, hkey, h]

/-- C7 witness: a configured key and an available model; still 400 and
zero outbound requests. -/
theorem generateHandler_empty_body_400_witness :
    generateHandler (.str "k") ⟨.undefined, .undefined⟩
      [("m", fun _ => ⟨200, "x"⟩)] = ⟨400, errObj "Topic or prompt is required.", 0⟩ :=
  generateHandler_empty_body_400 (.str "k") [("m", fun _ => ⟨200, "x"⟩)] rfl

/-- C8 counterexample: body `\x7b topic: 5 \x7d` — the selected value is the
number `5`, not a string — is not rejected: the model loop runs and three
outbound requests are issued. -/
theorem generateHandler_nonstring_topic_outbound :
    generateHandler (.str "k") ⟨.num 5, .undefined⟩ [("m", fun _ => ⟨503, ""⟩)] =
      ⟨503, errObj "All Gemini models are unavailable or quota exhausted.", 3⟩
    ∧ (generateHandler (.str "k") ⟨.num 5, .undefined⟩
        [("m", fun _ => ⟨503, ""⟩)]).outbound ≠ 0 :=
  ⟨rfl, by decide⟩

/-- C8 amended: the guard is JavaScript truthiness, not string-ness: a
falsy selected value (absent, `null`, `false`, `0`, or the empty string)
is rejected with 400 before any outbound request, while any truthy value
— string or not — proceeds to the model loop. -/
theorem generateHandler_falsy_topic_rejected (apiKey : JSValue) (body : GenRequest)
    (models : List ModelSpec)
    (hkey : jsTruthy apiKey = true) (htopic : jsTruthy (selectTopic body) = false) :
    generateHandler apiKey body models =
      ⟨400, errObj "Topic or prompt is required.", 0⟩ := by
  simp [generateHandler, hkey, htopic]

/-- C8 witness: an empty-string topic with a falsy prompt fallback is
rejected with zero outbound requests. -/
theorem generateHandler_falsy_topic_rejected_witness :
    generateHandler (.str "k") ⟨.str "", .bool false⟩
      [("m", fun _ => ⟨200, "x"⟩)] = ⟨400, errObj "Topic or prompt is required.", 0⟩ :=
  generateHandler_falsy_topic_rejected (.str "k") ⟨.str "", .bool false⟩
    [("m", fun _ => ⟨200, "x"⟩)] rfl rfl

/-- C9: no schema validation — when the first model's envelope text embeds
a brace-delimited JSON object missing `html`, `css` or `js`, extraction
still succeeds and the handler answers 200 with that object unchanged. -/
theorem generateHandler_no_schema_validation (apiKey : JSValue) (body : GenRequest)
    (name : String) (tr : Nat → HttpResponse) (rest : List ModelSpec) (b : String)
    (data : Json) (t : String) (s e : Nat) (kvs : List (String × Json))
    (hkey : jsTruthy apiKey = true) (htopic : jsTruthy (selectTopic body) = true)
    (hresp : tr 0 = ⟨200, b⟩)
    (hdata : jsonParse b.toList = some data)
    (hnav : navigateEnvelope data = some (.str t))
    (ht : t ≠ "")
    (hs : firstIdx '\x7b' t.toList = some s)
    (he : lastIdx '\x7d' t.toList = some e)
    (_hse : s ≤ e)
    (hp : jsonParse (jsSubstring t.toList s (e + 1)) = some (.obj kvs))
    (_hmiss : listLookup kvs "html" = none ∨ listLookup kvs "css" = none ∨
      listLookup kvs "js" = none) :
    (attemptModel tr).1 = .ok (.obj kvs)
    ∧ (generateHandler apiKey body ((name, tr) :: rest)).respStatus = 200
    ∧ (generateHandler apiKey body ((name, tr) :: rest)).respBody = .obj kvs := by
  have hex : extractJSON t.toList = .ok (.obj kvs) :=
    extractJSON_ok_of_parse t.toList s e (.obj kvs) hs he hp
  have hfetch : fetchWithRetry tr 3 2000 = ⟨.success ⟨200, b⟩, 1, 0, 0⟩ := by
    show fetchLoop tr 2000 0 3 = _
    simp [show (3 : Nat) = 2 + 1 from rfl, fetchLoop, hresp, HttpResponse.respOk]
  have hdata2 : jsonParse b.data = some data := hdata
  have hex2 : extractJSON t.data = .ok (.obj kvs) := hex
  have hatt : (attemptModel tr).1 = .ok (.obj kvs) := by
    simp [attemptModel, hfetch, hdata2, hnav, jsonTruthy, ht, hex2]
  refine ⟨hatt, ?_, ?_⟩
  · simp [generateHandler, hkey, htopic, runModels, hatt, jsonTruthy]
  · simp [generateHandler, hkey, htopic, runModels, hatt, jsonTruthy]

/-- C9 witness: the first model's text embeds `\x7b"foo":"bar"\x7d` — no
`html`/`css`/`js` — and the handler answers 200 with exactly that
object. -/
theorem generateHandler_no_schema_validation_witness :
    (attemptModel (fun _ =>
      ⟨200, "\x7b\"candidates\":[\x7b\"content\":\x7b\"parts\":[\x7b\"text\":\"hello \x7b\\\"foo\\\":\\\"bar\\\"\x7d bye\"\x7d]\x7d\x7d]\x7d"⟩)).1
      = .ok (.obj [("foo", .str "bar")])
    ∧ (generateHandler (.str "k") ⟨.str "cat", .undefined⟩
        [("gemini-2.5-flash-lite", fun _ =>
          ⟨200, "\x7b\"candidates\":[\x7b\"content\":\x7b\"parts\":[\x7b\"text\":\"hello \x7b\\\"foo\\\":\\\"bar\\\"\x7d bye\"\x7d]\x7d\x7d]\x7d"⟩)]).respStatus
      = 200
    ∧ (generateHandler (.str "k") ⟨.str "cat", .undefined⟩
        [("gemini-2.5-flash-lite", fun _ =>
          ⟨200, "\x7b\"candidates\":[\x7b\"content\":\x7b\"parts\":[\x7b\"text\":\"hello \x7b\\\"foo\\\":\\\"bar\\\"\x7d bye\"\x7d]\x7d\x7d]\x7d"⟩)]).respBody
      = .obj [("foo", .str "bar")] :=
  generateHandler_no_schema_validation (.str "k") ⟨.str "cat", .undefined⟩
    "gemini-2.5-flash-lite"
    (fun _ =>
      ⟨200, "\x7b\"candidates\":[\x7b\"content\":\x7b\"parts\":[\x7b\"text\":\"hello \x7b\\\"foo\\\":\\\"bar\\\"\x7d bye\"\x7d]\x7d\x7d]\x7d"⟩)
    []
    "\x7b\"candidates\":[\x7b\"content\":\x7b\"parts\":[\x7b\"text\":\"hello \x7b\\\"foo\\\":\\\"bar\\\"\x7d bye\"\x7d]\x7d\x7d]\x7d"
    (.obj [("candidates", .arr [.obj [("content", .obj [("parts", .arr [.obj
      [("text", .str "hello \x7b\"foo\":\"bar\"\x7d bye")]])])]])])
    "hello \x7b\"foo\":\"bar\"\x7d bye" 6 18 [("foo", .str "bar")]
    rfl rfl rfl rfl rfl (by decide) rfl rfl (by decide) rfl (Or.inl rfl)
